import Mathlib

/-!
Verification of the job-orchestration and audio-reassembly pipeline of the
audio-book backend, against a shallow embedding of the Python sources
(src/credits/service.py, src/jobs/router.py, src/audio/router.py,
src/admin/router.py, src/supabase_client.py).

The embedding keeps one owner and one job in scope: every Mongo filter on
`job_id`/`user_id` in the embedded endpoints matches by construction, so the
store state is the job document plus the owner's credit balance. Balances are
embedded as `Int` because Mongo `$inc` happily takes a numeric field negative.
Timestamps, rate limiting, authentication and file validation are dropped:
they touch no state the claims mention.
-/

deriving instance DecidableEq for Except

namespace AudioBook

/-! ## Credit ledger (src/credits/service.py) -/

def UPLOAD_COST : Int := 10

def DOWNLOAD_COST : Int := 20

def PAGE_COST : Int := 1

/-- The function `deduct_credits_atomic` of src/credits/service.py (lines
25-32): a single conditional `update_one` with filter `credits >= amount` and
update `$inc: {credits: -amount}`. `none` stands for the raised
HTTPException 403 "Insufficient credits" when `modified_count == 0`;
otherwise the new balance is returned. -/
def deduct_credits_atomic (balance amount : Int) : Option Int :=
  if amount ≤ balance then some (balance - amount) else none

/-- The function `add_credits` of src/credits/service.py (lines 35-39): an
unconditional `$inc: {credits: amount}`. -/
def add_credits (balance amount : Int) : Int := balance + amount

/-- The function `require_credits` of src/credits/service.py (lines 21-23):
a pure check against an already-read user document (a snapshot of the
balance), raising 403 when `user["credits"] < amount`. Returns whether the
check passes. -/
def require_credits (snapshot amount : Int) : Bool := decide (amount ≤ snapshot)

/-- Modelled from the spec: `deduct_credits` is imported from
`credits.service` by src/audio/router.py and src/admin/router.py but is not
defined in src/credits/service.py. Spec §9 describes it as the older
"read-balance-then-subtract pattern", an unconditional subtraction with no
precondition at decrement time, in contrast to `deduct_credits_atomic`. -/
def deduct_credits (balance amount : Int) : Int := balance - amount

/-! ## Job documents and the start endpoint (src/jobs/router.py) -/

structure JobDoc where
  status : String
  numPages : Nat
  taskIds : Option (List Int)
  deriving Repr, DecidableEq

/-- The slice of the document store the orchestration claims touch: the job
document and its owner's credit balance. -/
structure DB where
  job : JobDoc
  credits : Int
  deriving Repr, DecidableEq

/-- The `find_one_and_update` opening `start_job` (src/jobs/router.py lines
234-246): filter `status == "uploaded"` (plus the job/owner keys), update
sets `status = "processing"` and a start timestamp. pymongo returns the
matched document as it was before the update, or `None` when the filter
matched nothing. -/
def tryFlipUploaded (db : DB) : Option JobDoc × DB :=
  if db.job.status = "uploaded" then
    (some db.job, { db with job := { db.job with status := "processing" } })
  else (none, db)

/-- Python `end = end or total` (src/jobs/router.py line 253): `or` also
replaces an explicit `0` by `total`, not just `None`. -/
def endOf (total : Int) (endOpt : Option Int) : Int :=
  match endOpt with
  | none => total
  | some v => if v = 0 then total else v

inductive StartErr where
  | alreadyStarted
  | invalidRange
  | pageLimit
  | insufficientCredits
  | dispatchFailure
  deriving Repr, DecidableEq

/-- The task handles returned by the `celery.send_task` loop, one per page of
the requested range. Celery ids are opaque unique strings; the embedding
names the handle of page `p` by `p` itself. -/
def taskIdsFor (startP pages : Int) : List Int :=
  List.map (fun i : Nat => startP + (i : Int)) (List.range pages.toNat)

/-- The endpoint `start_job` of src/jobs/router.py (lines 222-290).
`maxPagesPerJob` stands for `MAX_PAGES_PER_JOB`, which the source imports
from core.config but which is not defined there; it is left a parameter.
`failAfter = some n` injects the partial-dispatch failure: `send_task`
raises after `n` successful submissions; `none` means all submissions
succeed. Mirrored control flow, in source order: the conditional status
flip, `total`/`end`/`pages`/`total_cost` computation from the pre-update
document, the range check, the batch-ceiling check, the atomic debit, the
submission loop with its refunding `except`, and the final `update_one`
whose filter requires `status == "uploaded"`. -/
def start_job (maxPagesPerJob : Int) (failAfter : Option Nat)
    (db : DB) (startP : Int) (endOpt : Option Int) :
    Except StartErr (Int × List Int) × DB :=
  match tryFlipUploaded db with
  | (none, db1) => (.error .alreadyStarted, db1)
  | (some oldJob, db1) =>
    let total : Int := oldJob.numPages
    let e : Int := endOf total endOpt
    let pages : Int := e - startP + 1
    let total_cost : Int := PAGE_COST * pages
    if startP < 1 ∨ e > total ∨ startP > e then (.error .invalidRange, db1)
    else if pages > maxPagesPerJob then (.error .pageLimit, db1)
    else
      match deduct_credits_atomic db1.credits total_cost with
      | none => (.error .insufficientCredits, db1)
      | some b1 =>
        let db2 : DB := { db1 with credits := b1 }
        match failAfter with
        | some n =>
          if (n : Int) < pages then
            (.error .dispatchFailure,
              { db2 with credits := add_credits db2.credits total_cost })
          else
            let ids := taskIdsFor startP pages
            let db3 : DB :=
              if db2.job.status = "uploaded" then
                { db2 with job :=
                  { db2.job with status := "processing", taskIds := some ids } }
              else db2
            (.ok (pages, ids), db3)
        | none =>
          let ids := taskIdsFor startP pages
          let db3 : DB :=
            if db2.job.status = "uploaded" then
              { db2 with job :=
                { db2.job with status := "processing", taskIds := some ids } }
            else db2
          (.ok (pages, ids), db3)

/-- The endpoint `get_status` of src/jobs/router.py (lines 325-343):
`find_one({"task_ids": task_id, "user_id": ...})` matches a job whose
`task_ids` array contains the given id; no match (in particular a job with
no `task_ids` field at all) raises 403 "Not authorized". `.ok` stands for
the forwarded celery state lookup. -/
def get_status (db : DB) (taskId : Int) : Except Unit Unit :=
  match db.job.taskIds with
  | some ids => if taskId ∈ ids then .ok () else .error ()
  | none => .error ()

inductive UploadErr where
  | pageLimit
  | insufficientCredits
  | storageFailure
  | jobNotFound
  deriving Repr, DecidableEq

/-- The endpoint `upload_pdf` of src/jobs/router.py (lines 38-108),
restricted to its ledger interaction. `pagesOverLimit` abstracts the pure
`pages > MAX_PAGES` check that precedes the debit; `blobOk` / `insertOk` say
whether `upload_bytes` / `insert_one` inside the `try` raise. The `except`
refunds `UPLOAD_COST` via `add_credits` and re-raises. Returned: the
endpoint outcome and the caller's final balance. -/
def upload_pdf (balance : Int) (pagesOverLimit blobOk insertOk : Bool) :
    Except UploadErr Unit × Int :=
  if pagesOverLimit then (.error .pageLimit, balance)
  else
    match deduct_credits_atomic balance UPLOAD_COST with
    | none => (.error .insufficientCredits, balance)
    | some b1 =>
      if blobOk && insertOk then (.ok (), b1)
      else (.error .storageFailure, add_credits b1 UPLOAD_COST)

/-- The endpoint `reupload_pdf` of src/jobs/router.py (lines 131-203),
restricted to its ledger interaction: job lookup, the pure page-limit check,
the atomic debit, then `upload_bytes` and `update_one` inside a `try` whose
`except` refunds `UPLOAD_COST` and re-raises. -/
def reupload_pdf (balance : Int) (jobFound pagesOverLimit blobOk updateOk : Bool) :
    Except UploadErr Unit × Int :=
  if !jobFound then (.error .jobNotFound, balance)
  else if pagesOverLimit then (.error .pageLimit, balance)
  else
    match deduct_credits_atomic balance UPLOAD_COST with
    | none => (.error .insufficientCredits, balance)
    | some b1 =>
      if blobOk && updateOk then (.ok (), b1)
      else (.error .storageFailure, add_credits b1 UPLOAD_COST)

/-! ## Audio segments and reassembly (src/audio/router.py) -/

/-- WAV format parameters as read by `wave.getparams`: channel count, sample
width in bytes, frame rate. -/
structure WavParams where
  nchannels : Nat
  sampwidth : Nat
  framerate : Nat
  deriving Repr, DecidableEq

/-- One per-page audio segment: its header parameters, its declared frame
count (`getnframes`) and its raw PCM payload bytes
(`readframes(getnframes())`). -/
structure Segment where
  params : WavParams
  nframes : Nat
  payload : List Nat
  deriving Repr, DecidableEq

def frameSize (p : WavParams) : Nat := p.nchannels * p.sampwidth

/-- The merged output container: the single header's format parameters and
declared frame count, and the concatenated payload. The Python `wave`
writer patches the header on close so that the declared frame count is the
number of bytes written divided by the frame size of the header's
parameters. -/
structure MergedWav where
  params : WavParams
  declaredFrames : Nat
  payload : List Nat
  deriving Repr, DecidableEq

/-- Python `key.split("_")` for the one-character separator: splits at every
separator occurrence, keeping empty pieces. -/
def splitOnChar (sep : Char) : List Char → List (List Char)
  | [] => [[]]
  | c :: rest =>
    let r := splitOnChar sep rest
    if c = sep then [] :: r
    else
      match r with
      | [] => [[c]]
      | g :: gs => (c :: g) :: gs

def digitsToNat (cs : List Char) : Nat :=
  cs.foldl (fun n c => n * 10 + (c.toNat - 48)) 0

/-- The helper `page_sort_key` (src/audio/router.py lines 67-68 and 122-123,
src/supabase_client.py lines 86-87): `int(key.split("_")[-1])`. Python `int`
raises on a non-digit suffix; the embedding returns 0 there, a case no claim
exercises. -/
def page_sort_key (k : String) : Nat :=
  let last := (splitOnChar '_' k.data).getLastD []
  if last ≠ [] ∧ last.all (fun c => c.isDigit) then digitsToNat last else 0

/-- `sorted(pages.items(), key=page_sort_key)`: Python's `sorted` is a
stable sort, ascending by key, as is `List.insertionSort` with the
by-key relation. -/
def sortPages (pages : List (String × Segment)) : List (String × Segment) :=
  pages.insertionSort (fun a b => page_sort_key a.1 ≤ page_sort_key b.1)

inductive AudioErr where
  | noAudioPages
  | audioNotAvailable
  | insufficientCredits
  | wavParamsNone
  deriving Repr, DecidableEq

/-- The endpoint `stream_wav` of src/audio/router.py (lines 52-105): 404
"No audio pages" on an empty page map; otherwise sort by `page_sort_key`,
capture `getparams()` of the first segment only, collect every segment's
`readframes(getnframes())`, and write one output through a `wave` writer.
The writer's `writeframes`/close patch the header, so the declared frame
count is the total payload length divided by the first segment's frame
size (the loop's own `total_frames` sum is never used for the output). -/
def stream_wav (pages : List (String × Segment)) : Except AudioErr MergedWav :=
  if pages.isEmpty then .error .noAudioPages
  else
    match sortPages pages with
    | [] => .error .noAudioPages
    | (_, s0) :: _ =>
      let payload := ((sortPages pages).map (fun kv => kv.2.payload)).flatten
      .ok ⟨s0.params, payload.length / frameSize s0.params, payload⟩

/-- The endpoint `download_audio` of src/audio/router.py (lines 107-158).
`pagesField = none` is a job document without a `"pages"` key (404 "Audio
not available", line 114); note the check does not catch a present-but-empty
map. Then `require_credits` checks the balance snapshot read at
authentication and `deduct_credits` subtracts (lines 119-120), and the merge
proceeds as in `stream_wav`. With an empty map the first-pass loop never
runs, so `params` stays `None` and the writer's `setparams(None)` raises
while the response body streams (`wavParamsNone`), after the debit. -/
def download_audio (pagesField : Option (List (String × Segment)))
    (balance : Int) : Except AudioErr MergedWav × Int :=
  match pagesField with
  | none => (.error .audioNotAvailable, balance)
  | some pages =>
    if !(require_credits balance DOWNLOAD_COST) then
      (.error .insufficientCredits, balance)
    else
      let b1 := deduct_credits balance DOWNLOAD_COST
      match sortPages pages with
      | [] => (.error .wavParamsNone, b1)
      | (_, s0) :: _ =>
        let payload := ((sortPages pages).map (fun kv => kv.2.payload)).flatten
        (.ok ⟨s0.params, payload.length / frameSize s0.params, payload⟩, b1)

/-! ## Interleaving model for the download debit (C3)

The only shared mutable state the ledger claims touch is the balance; each
store call is atomic, and an interleaving of two requests is a schedule of
their atomic steps. A download request interacts with the ledger twice
(src/audio/router.py): `get_current_user` reads the user document (the
balance snapshot), then line 119 `require_credits(user, DOWNLOAD_COST)`
checks that snapshot and line 120 `deduct_credits` subtracts
unconditionally. `approve_review` (src/admin/router.py lines 314-323)
follows the same snapshot-check-subtract shape. -/

inductive DlPc where
  | start
  | haveSnap (snap : Int)
  | doneOk
  | failedCredits
  deriving Repr, DecidableEq

/-- One atomic step of a download request's ledger interaction. -/
def dlStep (p : DlPc) (bal : Int) : DlPc × Int :=
  match p with
  | .start => (.haveSnap bal, bal)
  | .haveSnap s =>
    if require_credits s DOWNLOAD_COST then (.doneOk, deduct_credits bal DOWNLOAD_COST)
    else (.failedCredits, bal)
  | p => (p, bal)

/-- Run two download requests under a schedule (`true` steps the first). -/
def dlRun (sched : List Bool) (st : DlPc × DlPc × Int) : DlPc × DlPc × Int :=
  sched.foldl
    (fun st b =>
      if b then
        let (p1, bal) := dlStep st.1 st.2.2
        (p1, st.2.1, bal)
      else
        let (p2, bal) := dlStep st.2.1 st.2.2
        (st.1, p2, bal))
    st

/-! ## Interleaving model for `start_job` (C5)

Each constructor below is a program point of one `start_job` request
(src/jobs/router.py lines 222-290) between its atomic store operations: the
conditional status flip, the pure range/ceiling checks, the atomic debit,
the submission loop, and the final recording `update_one`. -/

inductive SPc where
  | entry
  | flipped
  | validated
  | debited
  | sent
  | doneOk
  | doneAlready
  | doneInvalid
  | doneLimit
  | doneNoCredits
  | doneDispatchFail
  deriving Repr, DecidableEq

/-- One atomic step of a `start_job` request against the shared job document
and balance. The range read in the source comes from the pre-update document
returned by `find_one_and_update`; since nothing mutates `num_pages`,
reading it from the current document is the same value. `sendOk` says
whether the celery submissions succeed. -/
def sjStep (maxPagesPerJob startP : Int) (endOpt : Option Int) (sendOk : Bool)
    (p : SPc) (db : DB) : SPc × DB :=
  match p with
  | .entry =>
    match tryFlipUploaded db with
    | (some _, db') => (.flipped, db')
    | (none, db') => (.doneAlready, db')
  | .flipped =>
    let total : Int := db.job.numPages
    let e := endOf total endOpt
    let pages := e - startP + 1
    if startP < 1 ∨ e > total ∨ startP > e then (.doneInvalid, db)
    else if pages > maxPagesPerJob then (.doneLimit, db)
    else (.validated, db)
  | .validated =>
    let pages := endOf db.job.numPages endOpt - startP + 1
    match deduct_credits_atomic db.credits (PAGE_COST * pages) with
    | some b1 => (.debited, { db with credits := b1 })
    | none => (.doneNoCredits, db)
  | .debited =>
    let pages := endOf db.job.numPages endOpt - startP + 1
    if sendOk then (.sent, db)
    else (.doneDispatchFail, { db with credits := add_credits db.credits (PAGE_COST * pages) })
  | .sent =>
    if db.job.status = "uploaded" then
      let ids := taskIdsFor startP (endOf db.job.numPages endOpt - startP + 1)
      (.doneOk, { db with job := { db.job with status := "processing", taskIds := some ids } })
    else (.doneOk, db)
  | p => (p, db)

def sjStepAt (maxPagesPerJob startP : Int) (endOpt : Option Int) (sendOk : Bool)
    (side : Bool) (st : SPc × SPc × DB) : SPc × SPc × DB :=
  if side then
    let (p1, db) := sjStep maxPagesPerJob startP endOpt sendOk st.1 st.2.2
    (p1, st.2.1, db)
  else
    let (p2, db) := sjStep maxPagesPerJob startP endOpt sendOk st.2.1 st.2.2
    (st.1, p2, db)

/-- Run two `start_job` requests under a schedule (`true` steps the first). -/
def sjRun (maxPagesPerJob startP : Int) (endOpt : Option Int) (sendOk : Bool)
    (sched : List Bool) (st : SPc × SPc × DB) : SPc × SPc × DB :=
  sched.foldl (fun st b => sjStepAt maxPagesPerJob startP endOpt sendOk b st) st

def sjDone : SPc → Bool
  | .doneOk | .doneAlready | .doneInvalid | .doneLimit
  | .doneNoCredits | .doneDispatchFail => true
  | _ => false

/-- Both requests start at entry against an `uploaded` job with no recorded
task ids and balance `b0`. -/
def sjInit (N : Nat) (b0 : Int) : SPc × SPc × DB :=
  (.entry, .entry, ⟨⟨"uploaded", N, none⟩, b0⟩)

/-! ## Demonstration segments and shared lemmas -/

/-- A 1-channel 16-bit 16kHz segment used only as payload of ordering
examples. -/
def demoSeg : Segment := ⟨⟨1, 2, 16000⟩, 0, []⟩

/-- Mono 16-bit 16kHz, 2 frames (4 bytes). -/
def segMono : Segment := ⟨⟨1, 2, 16000⟩, 2, [0, 1, 2, 3]⟩

/-- Stereo 16-bit 22.05kHz, 1 frame (4 bytes): format-incompatible with
`segMono`. -/
def segStereo : Segment := ⟨⟨2, 2, 22050⟩, 1, [7, 7, 7, 7]⟩

lemma sortPages_perm (pages : List (String × Segment)) : (sortPages pages).Perm pages :=
  List.perm_insertionSort _ _

lemma stream_wav_sorted_cons (pages : List (String × Segment))
    (k0 : String) (s0 : Segment) (rest : List (String × Segment))
    (h : sortPages pages = (k0, s0) :: rest) :
    stream_wav pages =
      Except.ok ⟨s0.params,
        (((k0, s0) :: rest).map (fun kv => kv.2.payload)).flatten.length / frameSize s0.params,
        (((k0, s0) :: rest).map (fun kv => kv.2.payload)).flatten⟩ := by
  have hne : pages ≠ [] := by
    intro he
    rw [he] at h
    simp [sortPages, List.insertionSort] at h
  unfold stream_wav
  rw [if_neg (by simp [List.isEmpty_iff, hne]), h]

/-- C8: for every page map, reassembly orders segments by the numeric suffix
embedded in each page key, ascending — the sorted list is a permutation of
the map's entries, pairwise ordered by `page_sort_key` — and on the keys
{page_1, page_10, page_2} the resulting order is page_1, page_2, page_10
(numeric, not lexicographic). -/
theorem reassembly_numeric_page_order (pages : List (String × Segment)) :
    (sortPages pages).Perm pages ∧
    List.Pairwise (fun a b => page_sort_key a.1 ≤ page_sort_key b.1) (sortPages pages) ∧
    (sortPages [("page_1", demoSeg), ("page_10", demoSeg), ("page_2", demoSeg)]).map Prod.fst
      = ["page_1", "page_2", "page_10"] := by
  refine ⟨sortPages_perm pages, ?_, by decide⟩
  haveI : IsTotal (String × Segment) (fun a b => page_sort_key a.1 ≤ page_sort_key b.1) :=
    ⟨fun a b => Nat.le_total _ _⟩
  haveI : IsTrans (String × Segment) (fun a b => page_sort_key a.1 ≤ page_sort_key b.1) :=
    ⟨fun a b c hab hbc => Nat.le_trans hab hbc⟩
  exact List.sorted_insertionSort _ _

/-- C6 counterexample: two ordered segments whose format parameters differ
(mono 16kHz vs stereo 22.05kHz) are merged without any FormatMismatch
failure: `stream_wav` returns a concatenated output stream under the first
segment's parameters. -/
theorem merge_mismatch_not_rejected :
    segStereo.params ≠ segMono.params ∧
    stream_wav [("page_1", segMono), ("page_2", segStereo)] =
      Except.ok ⟨⟨1, 2, 16000⟩, 4, [0, 1, 2, 3, 7, 7, 7, 7]⟩ := by decide

/-- C6 amended: reassembly never inspects the format parameters of segments
after the first. Whenever the sorted page list is non-empty, the merge
succeeds with a header carrying the first sorted segment's parameters and
the plain concatenation of every segment's payload — mismatched or not; no
FormatMismatch error exists on this path. -/
theorem merge_trusts_first_segment_params (pages : List (String × Segment))
    (k0 : String) (s0 : Segment) (rest : List (String × Segment))
    (h : sortPages pages = (k0, s0) :: rest) :
    stream_wav pages =
      Except.ok ⟨s0.params,
        (((k0, s0) :: rest).map (fun kv => kv.2.payload)).flatten.length / frameSize s0.params,
        (((k0, s0) :: rest).map (fun kv => kv.2.payload)).flatten⟩ :=
  stream_wav_sorted_cons pages k0 s0 rest h

/-- Witness for the amended C6 theorem, on a mismatched two-segment input
(which the sort also reorders). -/
theorem merge_trusts_first_segment_params_witness :
    stream_wav [("page_10", segStereo), ("page_2", segMono)] =
      Except.ok ⟨segMono.params,
        ((("page_2", segMono) :: [("page_10", segStereo)]).map
          (fun kv => kv.2.payload)).flatten.length / frameSize segMono.params,
        ((("page_2", segMono) :: [("page_10", segStereo)]).map
          (fun kv => kv.2.payload)).flatten⟩ :=
  merge_trusts_first_segment_params _ _ _ _ (by decide)

/-- C9 counterexample: a download of a job whose page map is present but
empty does not fail with NoAudioAvailable-and-no-effect: the download cost
is debited (100 becomes 80) and the failure is the wave writer's
`setparams(None)` crash while streaming. -/
theorem download_empty_page_map_debits :
    download_audio (some []) 100 = (Except.error AudioErr.wavParamsNone, 80) ∧
    (80 : Int) ≠ 100 := by decide

/-- C9 amended: with an empty page map, a stream request fails with
NoAudioAvailable and no effect, and a download request fails without a
debit only when the page-map field is absent from the job document; when
the field is present but empty, the download cost is debited before the
request fails during output writing. -/
theorem empty_page_map_outcomes :
    stream_wav ([] : List (String × Segment)) = Except.error AudioErr.noAudioPages ∧
    (∀ b : Int, download_audio none b = (Except.error AudioErr.audioNotAvailable, b)) ∧
    (∀ b : Int, DOWNLOAD_COST ≤ b →
      download_audio (some []) b = (Except.error AudioErr.wavParamsNone, b - DOWNLOAD_COST)) := by
  refine ⟨by decide, fun b => rfl, fun b hb => ?_⟩
  have hreq : require_credits b DOWNLOAD_COST = true := by
    simpa [require_credits] using hb
  simp [download_audio, hreq, deduct_credits, sortPages, List.insertionSort]

/-- Witness for the amended C9 theorem at balance 50. -/
theorem empty_page_map_outcomes_witness :
    DOWNLOAD_COST ≤ (50 : Int) ∧
    download_audio (some []) 50 = (Except.error AudioErr.wavParamsNone, 50 - DOWNLOAD_COST) :=
  ⟨by decide, empty_page_map_outcomes.2.2 50 (by decide)⟩

/-- C3 (code bug): the download debit is not a conditional atomic decrement
checked at decrement time — `require_credits` checks a balance snapshot
read at authentication and `deduct_credits` subtracts unconditionally. Two
download requests from balance 30, both of whose snapshots are read before
either debit, both pass the check and both debit, driving the balance to
-10 < 0. -/
theorem download_debit_race_negative_balance :
    dlRun [true, false, true, false] (DlPc.start, DlPc.start, 30) =
      (DlPc.doneOk, DlPc.doneOk, -10) ∧ ((-10 : Int) < 0) := by decide

/-- C10: the initial upload and the re-upload debit the upload cost first
and refund exactly that amount when the blob put or the job-record write
throws; every failed upload or re-upload leaves the caller's balance
unchanged. -/
theorem upload_failure_leaves_balance_unchanged
    (balance : Int) (pov bo io jf uok : Bool) :
    (∀ e, (upload_pdf balance pov bo io).1 = Except.error e →
      (upload_pdf balance pov bo io).2 = balance) ∧
    (∀ e, (reupload_pdf balance jf pov bo uok).1 = Except.error e →
      (reupload_pdf balance jf pov bo uok).2 = balance) := by
  constructor
  · intro e he
    unfold upload_pdf at he ⊢
    cases pov with
    | true => rfl
    | false =>
      rcases le_or_lt UPLOAD_COST balance with hle | hlt
      · have hd : deduct_credits_atomic balance UPLOAD_COST = some (balance - UPLOAD_COST) := by
          unfold deduct_credits_atomic
          rw [if_pos hle]
        simp only [hd] at he ⊢
        cases bo <;> cases io <;> simp_all [add_credits, UPLOAD_COST]
      · have hd : deduct_credits_atomic balance UPLOAD_COST = none := by
          unfold deduct_credits_atomic
          rw [if_neg (not_le.mpr hlt)]
        simp only [hd] at he ⊢
        rfl
  · intro e he
    unfold reupload_pdf at he ⊢
    cases jf with
    | false => rfl
    | true =>
      cases pov with
      | true => rfl
      | false =>
        rcases le_or_lt UPLOAD_COST balance with hle | hlt
        · have hd : deduct_credits_atomic balance UPLOAD_COST = some (balance - UPLOAD_COST) := by
            unfold deduct_credits_atomic
            rw [if_pos hle]
          simp only [hd] at he ⊢
          cases bo <;> cases uok <;> simp_all [add_credits, UPLOAD_COST]
        · have hd : deduct_credits_atomic balance UPLOAD_COST = none := by
            unfold deduct_credits_atomic
            rw [if_neg (not_le.mpr hlt)]
          simp only [hd] at he ⊢
          rfl

/-- Witness for C10: a failing blob put on upload and on re-upload, from
balance 100. -/
theorem upload_failure_leaves_balance_unchanged_witness :
    (upload_pdf 100 false false true).2 = 100 ∧ (reupload_pdf 100 true false false true).2 = 100 :=
  ⟨(upload_failure_leaves_balance_unchanged 100 false false true true true).1
      UploadErr.storageFailure (by decide),
   (upload_failure_leaves_balance_unchanged 100 false false true true true).2
      UploadErr.storageFailure (by decide)⟩

/-- C1 (code bug): for a job in status "uploaded" whose owner's balance is
below the required cost, `start_job` fails with InsufficientCredits and the
balance is untouched, but the job status — already flipped by the opening
`find_one_and_update` — remains "processing": the transition is not rolled
back, against the claim that the status is still "uploaded". -/
theorem start_job_insufficient_credits_no_rollback
    (maxP : Int) (failAfter : Option Nat) (db : DB) (startP : Int) (endOpt : Option Int)
    (hs : db.job.status = "uploaded")
    (hvr : ¬(startP < 1 ∨ endOf db.job.numPages endOpt > (db.job.numPages : Int) ∨
      startP > endOf db.job.numPages endOpt))
    (hvl : ¬(endOf db.job.numPages endOpt - startP + 1 > maxP))
    (hc : db.credits < PAGE_COST * (endOf db.job.numPages endOpt - startP + 1)) :
    start_job maxP failAfter db startP endOpt =
      (Except.error StartErr.insufficientCredits,
        { db with job := { db.job with status := "processing" } }) := by
  obtain ⟨⟨st, N, tids⟩, cr⟩ := db
  simp only [JobDoc.status] at hs
  subst hs
  simp only [JobDoc.numPages, DB.credits] at hvr hvl hc
  simp [start_job, tryFlipUploaded, deduct_credits_atomic, hvr, hvl, not_le.mpr hc]

/-- Witness for C1: a 3-page job in "uploaded", balance 0, full range. -/
theorem start_job_insufficient_credits_no_rollback_witness :
    start_job 50 none ⟨⟨"uploaded", 3, none⟩, 0⟩ 1 none =
      (Except.error StartErr.insufficientCredits, ⟨⟨"processing", 3, none⟩, 0⟩) :=
  start_job_insufficient_credits_no_rollback 50 none ⟨⟨"uploaded", 3, none⟩, 0⟩ 1 none
    rfl (by decide) (by decide) (by decide)

/-- C2 (code bug): a fully successful `start_job` run returns the task
handles, but the recording `update_one` filters on `status == "uploaded"`
after the same request already flipped the status to "processing", so the
handle set is never written to the job document; a subsequent `get_status`
by the owner on any returned handle fails with 403 "Not authorized". -/
theorem start_job_task_ids_never_recorded
    (maxP : Int) (db : DB) (startP : Int) (endOpt : Option Int)
    (pages : Int) (res : Except StartErr (Int × List Int) × DB)
    (hp : pages = endOf db.job.numPages endOpt - startP + 1)
    (hres : res = start_job maxP none db startP endOpt)
    (hs : db.job.status = "uploaded")
    (hids : db.job.taskIds = none)
    (hvr : ¬(startP < 1 ∨ endOf db.job.numPages endOpt > (db.job.numPages : Int) ∨
      startP > endOf db.job.numPages endOpt))
    (hvl : ¬(pages > maxP))
    (hb : PAGE_COST * pages ≤ db.credits) :
    res.1 = Except.ok (pages, taskIdsFor startP pages) ∧
    taskIdsFor startP pages ≠ [] ∧
    res.2.job.taskIds = none ∧
    (∀ t ∈ taskIdsFor startP pages, get_status res.2 t = Except.error ()) := by
  obtain ⟨⟨st, N, tids⟩, cr⟩ := db
  simp only [JobDoc.status, JobDoc.taskIds] at hs hids
  subst hs
  subst hids
  simp only [JobDoc.numPages, DB.credits] at hp hvr hb
  subst hp
  have hrun : start_job maxP none ⟨⟨"uploaded", N, none⟩, cr⟩ startP endOpt =
      (Except.ok (endOf N endOpt - startP + 1,
        taskIdsFor startP (endOf N endOpt - startP + 1)),
       ⟨⟨"processing", N, none⟩,
        cr - PAGE_COST * (endOf N endOpt - startP + 1)⟩) := by
    simp [start_job, tryFlipUploaded, deduct_credits_atomic, hvr, hvl, hb]
  subst hres
  rw [hrun]
  refine ⟨rfl, ?_, rfl, fun t _ => rfl⟩
  have hpge : 1 ≤ endOf N endOpt - startP + 1 := by
    push_neg at hvr
    omega
  intro hnil
  have hlen := congrArg List.length hnil
  rw [show (taskIdsFor startP (endOf N endOpt - startP + 1)).length
        = (endOf N endOpt - startP + 1).toNat by simp [taskIdsFor]] at hlen
  simp only [List.length_nil] at hlen
  omega

/-- Witness for C2: a 2-page job in "uploaded" with balance 5. -/
theorem start_job_task_ids_never_recorded_witness :
    (start_job 50 none ⟨⟨"uploaded", 2, none⟩, 5⟩ 1 none).1 =
      Except.ok (2, taskIdsFor 1 2) ∧
    taskIdsFor 1 2 ≠ [] ∧
    (start_job 50 none ⟨⟨"uploaded", 2, none⟩, 5⟩ 1 none).2.job.taskIds = none ∧
    (∀ t ∈ taskIdsFor 1 2,
      get_status (start_job 50 none ⟨⟨"uploaded", 2, none⟩, 5⟩ 1 none).2 t = Except.error ()) :=
  start_job_task_ids_never_recorded 50 ⟨⟨"uploaded", 2, none⟩, 5⟩ 1 none 2 _
    (by decide) rfl rfl rfl (by decide) (by decide) (by decide)

/-- C4 (code bug): when task submission throws after `n` of `pages`
submissions, `start_job` refunds the entire reserved cost — the balance
returns exactly to its initial value — but the job is left in status
"processing", so a retry of `start_job` is rejected with AlreadyStarted
instead of being accepted cleanly. -/
theorem start_job_partial_dispatch_full_refund_retry_rejected
    (maxP : Int) (n : Nat) (retryFail : Option Nat) (db : DB)
    (startP : Int) (endOpt : Option Int)
    (hs : db.job.status = "uploaded")
    (hvr : ¬(startP < 1 ∨ endOf db.job.numPages endOpt > (db.job.numPages : Int) ∨
      startP > endOf db.job.numPages endOpt))
    (hvl : ¬(endOf db.job.numPages endOpt - startP + 1 > maxP))
    (hb : PAGE_COST * (endOf db.job.numPages endOpt - startP + 1) ≤ db.credits)
    (hn : (n : Int) < endOf db.job.numPages endOpt - startP + 1) :
    start_job maxP (some n) db startP endOpt =
      (Except.error StartErr.dispatchFailure,
        { db with job := { db.job with status := "processing" } }) ∧
    (start_job maxP retryFail { db with job := { db.job with status := "processing" } }
        startP endOpt).1 = Except.error StartErr.alreadyStarted := by
  obtain ⟨⟨st, N, tids⟩, cr⟩ := db
  simp only [JobDoc.status] at hs
  subst hs
  simp only [JobDoc.numPages, DB.credits] at hvr hvl hb hn
  constructor
  · simp [start_job, tryFlipUploaded, deduct_credits_atomic, add_credits, hvr, hvl, hb, hn]
  · simp [start_job, tryFlipUploaded]

/-- Witness for C4: submission fails after 1 of 2 pages; balance 5 is fully
restored and the retry is rejected. -/
theorem start_job_partial_dispatch_full_refund_retry_rejected_witness :
    start_job 50 (some 1) ⟨⟨"uploaded", 2, none⟩, 5⟩ 1 none =
      (Except.error StartErr.dispatchFailure, ⟨⟨"processing", 2, none⟩, 5⟩) ∧
    (start_job 50 none ⟨⟨"processing", 2, none⟩, 5⟩ 1 none).1 =
      Except.error StartErr.alreadyStarted :=
  start_job_partial_dispatch_full_refund_retry_rejected 50 1 none
    ⟨⟨"uploaded", 2, none⟩, 5⟩ 1 none rfl (by decide) (by decide) (by decide) (by decide)

/-- Mono 16-bit 16kHz, 3 frames (6 bytes): format-compatible with
`segMono`. -/
def segMono3 : Segment := ⟨⟨1, 2, 16000⟩, 3, [9, 8, 7, 6, 5, 4]⟩

/-- C7: for a non-empty page map whose segments all share the first sorted
segment's format parameters (and whose payload lengths match their declared
frame counts), the merged output is one container whose header carries the
first segment's parameters and declares a frame count equal to the sum of
all segments' frame counts, followed by exactly the concatenation of every
segment's payload in page order. -/
theorem merge_same_format_sums_frames
    (pages : List (String × Segment)) (k0 : String) (s0 : Segment)
    (rest : List (String × Segment))
    (hsort : sortPages pages = (k0, s0) :: rest)
    (hfs : 0 < frameSize s0.params)
    (hwf : ∀ kv ∈ pages, (kv : String × Segment).2.payload.length
      = kv.2.nframes * frameSize s0.params) :
    stream_wav pages =
      Except.ok ⟨s0.params,
        (pages.map (fun kv => kv.2.nframes)).sum,
        (((k0, s0) :: rest).map (fun kv => kv.2.payload)).flatten⟩ := by
  have hbase := stream_wav_sorted_cons pages k0 s0 rest hsort
  have hperm : ((k0, s0) :: rest).Perm pages := by
    have := sortPages_perm pages
    rwa [hsort] at this
  have hmem : ∀ kv ∈ (k0, s0) :: rest, kv ∈ pages := fun kv hkv => hperm.mem_iff.mp hkv
  have hcongr : ((k0, s0) :: rest).map (List.length ∘ fun kv : String × Segment => kv.2.payload)
      = ((k0, s0) :: rest).map (fun kv => kv.2.nframes * frameSize s0.params) := by
    apply List.map_congr_left
    intro kv hkv
    exact hwf kv (hmem kv hkv)
  have hlen : (((k0, s0) :: rest).map (fun kv => kv.2.payload)).flatten.length
      = (((k0, s0) :: rest).map (fun kv => kv.2.nframes)).sum * frameSize s0.params := by
    rw [List.length_flatten, List.map_map, hcongr, ← List.sum_map_mul_right]
  have hsum : (((k0, s0) :: rest).map (fun kv => kv.2.nframes)).sum
      = (pages.map (fun kv => kv.2.nframes)).sum :=
    (hperm.map (fun kv => kv.2.nframes)).sum_eq
  rw [hbase, hlen, Nat.mul_div_cancel _ hfs, hsum]

/-- Witness for C7: two same-format segments given out of order; the merged
header declares 2 + 3 = 5 frames. -/
theorem merge_same_format_sums_frames_witness :
    stream_wav [("page_2", segMono3), ("page_1", segMono)] =
      Except.ok ⟨segMono.params,
        ([("page_2", segMono3), ("page_1", segMono)].map (fun kv => kv.2.nframes)).sum,
        ((("page_1", segMono) :: [("page_2", segMono3)]).map (fun kv => kv.2.payload)).flatten⟩ :=
  merge_same_format_sums_frames [("page_2", segMono3), ("page_1", segMono)]
    "page_1" segMono [("page_2", segMono3)] (by decide) (by decide) (by decide)

/-! ## C5: two interleaved `start_job` requests -/

/-- Winner/loser configuration: `a` is the request that won the conditional
status flip, `b` the other; the balance tracks whether `a` has debited. -/
def sjSide (b0 cost : Int) (a b : SPc) (db : DB) : Prop :=
  (b = SPc.entry ∨ b = SPc.doneAlready) ∧
  (((a = SPc.flipped ∨ a = SPc.validated) ∧ db.credits = b0) ∨
   ((a = SPc.debited ∨ a = SPc.sent ∨ a = SPc.doneOk) ∧ db.credits = b0 - cost))

/-- The configurations reachable by two interleaved `start_job` requests on
one `uploaded` job, under a valid range, a satisfied ceiling, a sufficient
balance, and successful submissions. -/
def sjInv (N : Nat) (b0 cost : Int) (st : SPc × SPc × DB) : Prop :=
  (st.1 = SPc.entry ∧ st.2.1 = SPc.entry ∧ st.2.2.job.status = "uploaded" ∧
    st.2.2.job.numPages = N ∧ st.2.2.credits = b0) ∨
  (st.2.2.job.status = "processing" ∧ st.2.2.job.numPages = N ∧
    (sjSide b0 cost st.1 st.2.1 st.2.2 ∨ sjSide b0 cost st.2.1 st.1 st.2.2))

lemma sjStep_loser (maxP startP : Int) (endOpt : Option Int) (sendOk : Bool)
    (p : SPc) (db : DB) (hp : p = SPc.entry ∨ p = SPc.doneAlready)
    (hst : db.job.status = "processing") :
    sjStep maxP startP endOpt sendOk p db = (SPc.doneAlready, db) := by
  rcases hp with h | h <;> subst h <;> simp [sjStep, tryFlipUploaded, hst]

lemma sjStep_winner (maxP startP : Int) (endOpt : Option Int) (N : Nat) (b0 : Int)
    (hvr : ¬(startP < 1 ∨ endOf N endOpt > (N : Int) ∨ startP > endOf N endOpt))
    (hvl : ¬(endOf N endOpt - startP + 1 > maxP))
    (hb : PAGE_COST * (endOf N endOpt - startP + 1) ≤ b0)
    (a : SPc) (db : DB) (hst : db.job.status = "processing")
    (hN : db.job.numPages = N)
    (ha : ((a = SPc.flipped ∨ a = SPc.validated) ∧ db.credits = b0) ∨
      ((a = SPc.debited ∨ a = SPc.sent ∨ a = SPc.doneOk) ∧
        db.credits = b0 - PAGE_COST * (endOf N endOpt - startP + 1))) :
    (sjStep maxP startP endOpt true a db).2.job.status = "processing" ∧
    (sjStep maxP startP endOpt true a db).2.job.numPages = N ∧
    ((((sjStep maxP startP endOpt true a db).1 = SPc.flipped ∨
        (sjStep maxP startP endOpt true a db).1 = SPc.validated) ∧
      (sjStep maxP startP endOpt true a db).2.credits = b0) ∨
     (((sjStep maxP startP endOpt true a db).1 = SPc.debited ∨
        (sjStep maxP startP endOpt true a db).1 = SPc.sent ∨
        (sjStep maxP startP endOpt true a db).1 = SPc.doneOk) ∧
      (sjStep maxP startP endOpt true a db).2.credits
        = b0 - PAGE_COST * (endOf N endOpt - startP + 1))) := by
  rcases ha with ⟨ha | ha, hcr⟩ | ⟨ha | ha | ha, hcr⟩ <;> subst ha
  · -- flipped: the pure range and ceiling checks pass
    rw [show sjStep maxP startP endOpt true SPc.flipped db = (SPc.validated, db) by
      simp [sjStep, hN, hvr, hvl]]
    exact ⟨hst, hN, Or.inl ⟨Or.inr rfl, hcr⟩⟩
  · -- validated: the atomic debit succeeds
    rw [show sjStep maxP startP endOpt true SPc.validated db
        = (SPc.debited, { db with credits :=
            db.credits - PAGE_COST * (endOf N endOpt - startP + 1) }) by
      simp [sjStep, deduct_credits_atomic, hN, hcr ▸ hb]]
    exact ⟨hst, hN, Or.inr ⟨Or.inl rfl, by simp [hcr]⟩⟩
  · -- debited: all submissions succeed
    rw [show sjStep maxP startP endOpt true SPc.debited db = (SPc.sent, db) by
      simp [sjStep]]
    exact ⟨hst, hN, Or.inr ⟨Or.inr (Or.inl rfl), hcr⟩⟩
  · -- sent: the recording update matches nothing (status is "processing")
    rw [show sjStep maxP startP endOpt true SPc.sent db = (SPc.doneOk, db) by
      simp [sjStep, hst]]
    exact ⟨hst, hN, Or.inr ⟨Or.inr (Or.inr rfl), hcr⟩⟩
  · -- doneOk: terminal
    rw [show sjStep maxP startP endOpt true SPc.doneOk db = (SPc.doneOk, db) by
      simp [sjStep]]
    exact ⟨hst, hN, Or.inr ⟨Or.inr (Or.inr rfl), hcr⟩⟩

lemma sjInv_step (maxP startP : Int) (endOpt : Option Int) (N : Nat) (b0 : Int)
    (hvr : ¬(startP < 1 ∨ endOf N endOpt > (N : Int) ∨ startP > endOf N endOpt))
    (hvl : ¬(endOf N endOpt - startP + 1 > maxP))
    (hb : PAGE_COST * (endOf N endOpt - startP + 1) ≤ b0)
    (side : Bool) (st : SPc × SPc × DB)
    (h : sjInv N b0 (PAGE_COST * (endOf N endOpt - startP + 1)) st) :
    sjInv N b0 (PAGE_COST * (endOf N endOpt - startP + 1))
      (sjStepAt maxP startP endOpt true side st) := by
  obtain ⟨p1, p2, db⟩ := st
  unfold sjInv sjSide at h ⊢
  dsimp only at h ⊢
  have hsplit1 : sjStepAt maxP startP endOpt true true (p1, p2, db)
      = ((sjStep maxP startP endOpt true p1 db).1, p2,
         (sjStep maxP startP endOpt true p1 db).2) := rfl
  have hsplit2 : sjStepAt maxP startP endOpt true false (p1, p2, db)
      = (p1, (sjStep maxP startP endOpt true p2 db).1,
         (sjStep maxP startP endOpt true p2 db).2) := rfl
  rcases h with ⟨h1, h2, hst, hN, hcr⟩ | ⟨hst, hN, hside | hside⟩
  · -- both at entry against the uploaded job: the stepped request wins
    subst h1
    subst h2
    have hflip : sjStep maxP startP endOpt true SPc.entry db =
        (SPc.flipped, { db with job := { db.job with status := "processing" } }) := by
      simp [sjStep, tryFlipUploaded, hst]
    cases side
    · rw [hsplit2, hflip]
      exact Or.inr ⟨rfl, hN, Or.inr ⟨Or.inl rfl, Or.inl ⟨Or.inl rfl, hcr⟩⟩⟩
    · rw [hsplit1, hflip]
      exact Or.inr ⟨rfl, hN, Or.inl ⟨Or.inl rfl, Or.inl ⟨Or.inl rfl, hcr⟩⟩⟩
  · -- the first request holds the flip
    obtain ⟨hb', ha⟩ := hside
    cases side
    · -- stepping the loser
      rw [hsplit2, sjStep_loser maxP startP endOpt true p2 db hb' hst]
      exact Or.inr ⟨hst, hN, Or.inl ⟨Or.inr rfl, ha⟩⟩
    · -- stepping the winner
      have hstep := sjStep_winner maxP startP endOpt N b0 hvr hvl hb p1 db hst hN ha
      rw [hsplit1]
      exact Or.inr ⟨hstep.1, hstep.2.1, Or.inl ⟨hb', hstep.2.2⟩⟩
  · -- the second request holds the flip
    obtain ⟨hb', ha⟩ := hside
    cases side
    · -- stepping the winner
      have hstep := sjStep_winner maxP startP endOpt N b0 hvr hvl hb p2 db hst hN ha
      rw [hsplit2]
      exact Or.inr ⟨hstep.1, hstep.2.1, Or.inr ⟨hb', hstep.2.2⟩⟩
    · -- stepping the loser
      rw [hsplit1, sjStep_loser maxP startP endOpt true p1 db hb' hst]
      exact Or.inr ⟨hst, hN, Or.inr ⟨Or.inr rfl, ha⟩⟩

lemma sjInv_run (maxP startP : Int) (endOpt : Option Int) (N : Nat) (b0 : Int)
    (hvr : ¬(startP < 1 ∨ endOf N endOpt > (N : Int) ∨ startP > endOf N endOpt))
    (hvl : ¬(endOf N endOpt - startP + 1 > maxP))
    (hb : PAGE_COST * (endOf N endOpt - startP + 1) ≤ b0)
    (sched : List Bool) (st : SPc × SPc × DB)
    (h : sjInv N b0 (PAGE_COST * (endOf N endOpt - startP + 1)) st) :
    sjInv N b0 (PAGE_COST * (endOf N endOpt - startP + 1))
      (sjRun maxP startP endOpt true sched st) := by
  induction sched generalizing st with
  | nil => exact h
  | cons b rest ih =>
    exact ih (sjStepAt maxP startP endOpt true b st)
      (sjInv_step maxP startP endOpt N b0 hvr hvl hb b st h)

/-- C5: for any interleaving of two `start_job` requests on the same
`uploaded` job (valid range, ceiling respected, sufficient balance,
submissions succeeding) after which both requests have terminated, exactly
one request succeeds and the other fails with AlreadyStarted — the status
check and flip being the single atomic conditional `find_one_and_update` of
the model — and the final balance reflects exactly one debit of the page
cost. -/
theorem concurrent_start_job_single_winner_single_debit
    (maxP startP : Int) (endOpt : Option Int) (N : Nat) (b0 : Int)
    (sched : List Bool) (r : SPc × SPc × DB)
    (hr : r = sjRun maxP startP endOpt true sched (sjInit N b0))
    (hvr : ¬(startP < 1 ∨ endOf N endOpt > (N : Int) ∨ startP > endOf N endOpt))
    (hvl : ¬(endOf N endOpt - startP + 1 > maxP))
    (hb : PAGE_COST * (endOf N endOpt - startP + 1) ≤ b0)
    (h1 : sjDone r.1 = true) (h2 : sjDone r.2.1 = true) :
    ((r.1 = SPc.doneOk ∧ r.2.1 = SPc.doneAlready) ∨
     (r.1 = SPc.doneAlready ∧ r.2.1 = SPc.doneOk)) ∧
    r.2.2.credits = b0 - PAGE_COST * (endOf N endOpt - startP + 1) ∧
    r.2.2.job.status = "processing" := by
  have hinv0 : sjInv N b0 (PAGE_COST * (endOf N endOpt - startP + 1)) (sjInit N b0) :=
    Or.inl ⟨rfl, rfl, rfl, rfl, rfl⟩
  have hinv := sjInv_run maxP startP endOpt N b0 hvr hvl hb sched _ hinv0
  rw [← hr] at hinv
  rcases hinv with ⟨h1', _, _⟩ | ⟨hst, _, hside | hside⟩
  · rw [h1'] at h1
    exact absurd h1 (by decide)
  · obtain ⟨hb', ha⟩ := hside
    rcases ha with ⟨ha | ha, _⟩ | ⟨ha | ha | ha, hcr⟩
    · rw [ha] at h1; exact absurd h1 (by decide)
    · rw [ha] at h1; exact absurd h1 (by decide)
    · rw [ha] at h1; exact absurd h1 (by decide)
    · rw [ha] at h1; exact absurd h1 (by decide)
    · rcases hb' with hb' | hb'
      · rw [hb'] at h2; exact absurd h2 (by decide)
      · exact ⟨Or.inl ⟨ha, hb'⟩, hcr, hst⟩
  · obtain ⟨hb', ha⟩ := hside
    rcases ha with ⟨ha | ha, _⟩ | ⟨ha | ha | ha, hcr⟩
    · rw [ha] at h2; exact absurd h2 (by decide)
    · rw [ha] at h2; exact absurd h2 (by decide)
    · rw [ha] at h2; exact absurd h2 (by decide)
    · rw [ha] at h2; exact absurd h2 (by decide)
    · rcases hb' with hb' | hb'
      · rw [hb'] at h1; exact absurd h1 (by decide)
      · exact ⟨Or.inr ⟨hb', ha⟩, hcr, hst⟩

/-- Witness for C5: a schedule running the first request to completion and
then the second; the first wins, the second gets AlreadyStarted, and the
balance 5 is debited once for the 2-page range. -/
theorem concurrent_start_job_single_winner_single_debit_witness :
    (((sjRun 50 1 none true [true, true, true, true, true, false] (sjInit 2 5)).1 = SPc.doneOk ∧
      (sjRun 50 1 none true [true, true, true, true, true, false] (sjInit 2 5)).2.1
        = SPc.doneAlready) ∨
     ((sjRun 50 1 none true [true, true, true, true, true, false] (sjInit 2 5)).1
        = SPc.doneAlready ∧
      (sjRun 50 1 none true [true, true, true, true, true, false] (sjInit 2 5)).2.1
        = SPc.doneOk)) ∧
    (sjRun 50 1 none true [true, true, true, true, true, false] (sjInit 2 5)).2.2.credits
      = 5 - PAGE_COST * (endOf 2 none - 1 + 1) ∧
    (sjRun 50 1 none true [true, true, true, true, true, false] (sjInit 2 5)).2.2.job.status
      = "processing" :=
  concurrent_start_job_single_winner_single_debit 50 1 none 2 5
    [true, true, true, true, true, false] _ rfl (by decide) (by decide) (by decide)
    (by decide) (by decide)

end AudioBook
